import Mathlib

/-!
Verification of the poll-detect-notify cycle of the homework status bot
(`homework.py` together with `exceptions.py`).

The Python code works on decoded JSON payloads (dynamically typed values)
and signals failures through exceptions.  We embed decoded payloads as the
inductive type `Json`, the exception classes that the code raises or
catches as `Exc`, and every fallible operation as a function into
`Except Exc _`.  The loop body of `main` is embedded as a step function on
an explicit state record; `bot.send_message` and `time.sleep` are recorded
in logs inside that state (delivery itself always succeeds in the model,
matching `send_message`, which swallows `telegram.TelegramError`).
-/

set_option autoImplicit false

namespace HomeworkBot

/-- A decoded JSON payload, as `response.json()` produces it: `None`,
booleans, integers, strings, lists and string-keyed dicts.  Dict fields are
kept in insertion order with unique keys, as Python dicts have. -/
inductive Json where
  | null
  | bool (b : Bool)
  | num (n : Int)
  | str (s : String)
  | arr (elems : List Json)
  | obj (fields : List (String × Json))

/-- The Python exceptions raised or caught by `homework.py`.
`keyError` carries the single argument of `KeyError(...)` (a key or a
message); the others carry the text of the exception (`str(e)`). -/
inductive Exc where
  | connectionError (msg : String)
  | serverAccessError (msg : String)
  | serverResponseError (msg : String)
  | keyError (msg : String)
  | typeError (msg : String)
  | valueError (msg : String)
  | attributeError (msg : String)
  | nameError (msg : String)
deriving DecidableEq

/-- `str(e)` as used by `.format(error=error)`: `KeyError`'s `str` is the
`repr` of its argument (the argument wrapped in single quotes), the other
classes print their message verbatim. -/
def excText : Exc → String
  | .keyError m => "\x27" ++ m ++ "\x27"
  | .connectionError m => m
  | .serverAccessError m => m
  | .serverResponseError m => m
  | .typeError m => m
  | .valueError m => m
  | .attributeError m => m
  | .nameError m => m

/-- First match in an association list; dict keys are unique, so this is
Python dict lookup. -/
def assocLookup (fields : List (String × Json)) (k : String) : Option Json :=
  match fields with
  | [] => none
  | (k2, v) :: rest => if k2 = k then some v else assocLookup rest k

/-- The name of a value's Python type, as `type(x)` reports it. -/
def pyTypeName : Json → String
  | .null => "NoneType"
  | .bool _ => "bool"
  | .num _ => "int"
  | .str _ => "str"
  | .arr _ => "list"
  | .obj _ => "dict"

/-- `f-string` rendering of `type(x)`: for example `<class \x27list\x27>`. -/
def pyTypeRepr (j : Json) : String :=
  "<class \x27" ++ pyTypeName j ++ "\x27>"

/-- Python `repr` of a decoded payload. -/
def pyRepr : Json → String
  | .null => "None"
  | .bool true => "True"
  | .bool false => "False"
  | .num n => toString n
  | .str s => "\x27" ++ s ++ "\x27"
  | .arr xs => "[" ++ String.intercalate ", " (xs.attach.map (fun x => pyRepr x.1)) ++ "]"
  | .obj fs =>
      "\x7b" ++
        String.intercalate ", "
          (fs.attach.map (fun p => "\x27" ++ p.1.1 ++ "\x27: " ++ pyRepr p.1.2)) ++
      "\x7d"
decreasing_by
  · have := List.sizeOf_lt_of_mem x.2
    simp at this ⊢
    omega
  · obtain ⟨⟨k, v⟩, hmem⟩ := p
    have := List.sizeOf_lt_of_mem hmem
    simp at this ⊢
    omega

/-- Python `str` of a decoded payload (differs from `repr` only on
strings, which print without quotes). -/
def pyStr (j : Json) : String :=
  match j with
  | .str s => s
  | _ => pyRepr j

/-- `x == needle` for a string literal `needle`: only equal strings
compare equal to a `str`. -/
def jsonEqStr (needle : String) : Json → Bool
  | .str s => s = needle
  | _ => false

/-- Does `s` start with `p`? (over character lists). -/
def listStartsWith (p s : List Char) : Bool :=
  match p, s with
  | [], _ => true
  | _ :: _, [] => false
  | a :: ps, b :: ss => a = b && listStartsWith ps ss

/-- Does `s` contain `p` as a contiguous run? (Python `p in s` on strings). -/
def listContainsSub (p s : List Char) : Bool :=
  listStartsWith p s ||
    match s with
    | [] => false
    | _ :: rest => listContainsSub p rest

/-- `needle in container` for a string literal `needle`: key membership
on dicts, element equality on lists, substring test on strings;
`TypeError` on non-iterables. -/
def pyIn (needle : String) : Json → Except Exc Bool
  | .obj fields => .ok (assocLookup fields needle).isSome
  | .arr xs => .ok (xs.any (jsonEqStr needle))
  | .str s => .ok (listContainsSub needle.toList s.toList)
  | j => .error (.typeError ("argument of type \x27" ++ pyTypeName j ++ "\x27 is not iterable"))

/-- `container[k]` for a string literal key `k`. -/
def pyGetItem (j : Json) (k : String) : Except Exc Json :=
  match j with
  | .obj fields =>
      match assocLookup fields k with
      | some v => .ok v
      | none => .error (.keyError k)
  | .arr _ => .error (.typeError "list indices must be integers or slices, not str")
  | .str _ => .error (.typeError "string indices must be integers")
  | other => .error (.typeError ("\x27" ++ pyTypeName other ++ "\x27 object is not subscriptable"))

/-! ## Module constants (`homework.py`, lines 41-97) -/

/-- `RETRY_PERIOD = 6` (homework.py line 45). -/
def RETRY_PERIOD : Nat := 6

/-- The fixed API endpoint. -/
def ENDPOINT : String := "https://practicum.yandex.ru/api/user_api/homework_statuses/"

/-- `str(HEADERS)` where `HEADERS = \x7b\x27Authorization\x27: f\x27OAuth \x7bPRACTICUM_TOKEN\x7d\x27\x7d`;
`PRACTICUM_TOKEN` is `os.getenv(...)`, so it may be `None`. -/
def HEADERS_repr (practicum_token : Option String) : String :=
  "\x7b\x27Authorization\x27: \x27OAuth " ++
    (match practicum_token with | none => "None" | some t => t) ++ "\x27\x7d"

/-- `HOMEWORK_VERDICTS`: the three-entry verdict table. -/
def HOMEWORK_VERDICTS : List (String × String) :=
  [("approved", "Работа проверена: ревьюеру всё понравилось. Ура!"),
   ("reviewing", "Работа взята на проверку ревьюером."),
   ("rejected", "Работа проверена: у ревьюера есть замечания.")]

/-- The top-level keys of the `ERROR_MESSAGES` dict (lines 55-90).
Note the crash-report key is spelled `program_crash` here, while the
loop's except arms look up `programm_crash`. -/
def ERROR_MESSAGES_top_keys : List String :=
  ["send_message", "check_tokens", "get_api_answer", "check_response",
   "parse_status", "program_crash", "access_error", "connection_problems"]

/-- `ERROR_MESSAGES[\x27check_tokens\x27][\x27KeyError\x27].format(lost_tokens=...)`. -/
def check_tokens_KeyError_fmt (lost_tokens : String) : String :=
  "Нет доступа к токенам: " ++ lost_tokens

/-- `ERROR_MESSAGES[\x27check_tokens\x27][\x27critical_error\x27].format(error=...)`. -/
def check_tokens_critical_fmt (error : String) : String :=
  error ++ ". Завершаю работу!"

/-- `ERROR_MESSAGES[\x27get_api_answer\x27][\x27requests.ConnectionError\x27]`, formatted. -/
def get_api_answer_connection_fmt (tok : Option String) (error : String) : String :=
  "Непредвиденная ошибка при запросе к API Практикума. Параметры запроса: url=" ++
    ENDPOINT ++ ", headers=" ++ HEADERS_repr tok ++ ". Ошибка - " ++ error

/-- `ERROR_MESSAGES[\x27get_api_answer\x27][\x27ServerAccessError\x27]`, formatted. -/
def get_api_answer_access_fmt (tok : Option String) (status_code : Nat) : String :=
  "Ошибка доступа к API Практикума. Параметры запроса: url=" ++ ENDPOINT ++
    ", headers=" ++ HEADERS_repr tok ++ ". Статус.код: " ++ toString status_code

/-- `ERROR_MESSAGES[\x27get_api_answer\x27][\x27ServerResponseError\x27]`, formatted. -/
def get_api_answer_response_fmt (tok : Option String) (message : String) : String :=
  "Отказ в обслуживании сервера Практикума. Параметры запроса: url=" ++ ENDPOINT ++
    ", headers=" ++ HEADERS_repr tok ++ ". Сообщение сервера: " ++ message

/-- `ERROR_MESSAGES[\x27check_response\x27][\x27KeyError\x27]`. -/
def check_response_KeyError_msg : String :=
  "Отсутствует необходимый ключ \"homeworks\" в ответе API"

/-- `ERROR_MESSAGES[\x27check_response\x27][\x27TypeError1\x27]`. -/
def check_response_TypeError1_msg : String := "Ответ API не содержит словаря"

/-- `ERROR_MESSAGES[\x27check_response\x27][\x27TypeError2\x27].format(type_hw=...)`. -/
def check_response_TypeError2_fmt (type_hw : String) : String :=
  "Неверный тип домашней работы. Тип полученной домашней работы: " ++ type_hw ++
    ", должен быть list"

/-- `ERROR_MESSAGES[\x27parse_status\x27][\x27KeyError1\x27]`. -/
def parse_status_KeyError1_msg : String :=
  "В \"homework\" отсутствует ключ \"homework_name\""

/-- `ERROR_MESSAGES[\x27parse_status\x27][\x27KeyError2\x27]`. -/
def parse_status_KeyError2_msg : String :=
  "В \"homework\" отсутствует ключ \"status\""

/-- `ERROR_MESSAGES[\x27parse_status\x27][\x27KeyError3\x27].format(status=...)`. -/
def parse_status_KeyError3_fmt (status : String) : String :=
  "Неизвестный статус домашней работы: " ++ status

/-- `ERROR_MESSAGES[\x27program_crash\x27].format(error=...)`. -/
def program_crash_fmt (error : String) : String :=
  "Сбой в работе программы: " ++ error

/-- `ERROR_MESSAGES[\x27access_error\x27].format(error=...)`. -/
def access_error_fmt (error : String) : String :=
  "Ошибка доступа: " ++ error

/-- `ERROR_MESSAGES[\x27connection_problems\x27].format(error=...)`. -/
def connection_problems_fmt (error : String) : String :=
  "Неполадки соединения: " ++ error

/-- `SUCCESSFUL_MESSAGES[\x27parse_status\x27].format(homework_name=..., verdict=...)`. -/
def parse_status_success_fmt (homework_name verdict : String) : String :=
  "Изменился статус проверки работы \"" ++ homework_name ++ "\". " ++ verdict

/-- `SUCCESSFUL_MESSAGES[\x27bot_init\x27]`. -/
def bot_init_msg : String := "Бот включен."

/-- `SUCCESSFUL_MESSAGES[\x27no_new_status\x27]`. -/
def no_new_status_msg : String := "Новые статусы в домашней работе отсутствуют"

/-! ## `check_tokens` and startup (`homework.py`, lines 116-125 and 205-220) -/

/-- The three environment variables as `os.getenv` returns them
(`none` when unset). -/
structure Credentials where
  practicum_token : Option String
  telegram_token : Option String
  telegram_chat_id : Option String

/-- Python falsiness of an `os.getenv` result: `None` and `""` are falsy. -/
def tokenFalsy : Option String → Bool
  | none => true
  | some s => s = ""

/-- `check_tokens`: collects the names of falsy credentials in declaration
order and raises `KeyError` listing them when any is missing. -/
def check_tokens (c : Credentials) : Except Exc Unit :=
  let lost :=
    (([("PRACTICUM_TOKEN", c.practicum_token),
       ("TELEGRAM_TOKEN", c.telegram_token),
       ("TELEGRAM_CHAT_ID", c.telegram_chat_id)].filter
        (fun p => tokenFalsy p.2)).map (fun p => p.1))
  if lost.isEmpty then .ok ()
  else .error (.keyError (check_tokens_KeyError_fmt (String.intercalate ", " lost)))

/-- Outcome of `main` before the `while` loop: either `sys.exit(1)` after
`logger.critical(...)` (no message is ever sent on this path), or the loop
is entered after the `bot_init` notification attempt. -/
inductive StartupOutcome where
  | exited (code : Nat) (criticalLog : String)
  | enteredLoop (sends : List String)
deriving DecidableEq

/-- The startup part of `main` (lines 207-219): `check_tokens` failure is
caught, logged critical and the process exits with status 1; otherwise the
bot is created and the `bot_init` message is sent before the loop. -/
def main_startup (c : Credentials) : StartupOutcome :=
  match check_tokens c with
  | .error e => .exited 1 (check_tokens_critical_fmt (excText e))
  | .ok _ => .enteredLoop [bot_init_msg]

/-! ## `get_api_answer` (`homework.py`, lines 144-171) -/

/-- What the HTTP layer does for one `requests.get` call: either the
request raises `requests.RequestException`, or a reply with a status code
and an already-decoded JSON body comes back (`response.json()` is taken as
succeeding; undecodable bodies are outside the claims under proof). -/
inductive HttpOutcome where
  | requestException (errText : String)
  | response (status_code : Nat) (body : Json)

/-- Python tuple-unpacking `key, value = v` of a single value into two
targets: two-element lists/strings/dicts (a dict iterates over its keys)
unpack, other lengths raise `ValueError`, non-iterables raise `TypeError`. -/
def unpack2 : Json → Except Exc (Json × Json)
  | .str s =>
      match s.toList with
      | [a, b] => .ok (.str (String.mk [a]), .str (String.mk [b]))
      | [] => .error (.valueError "not enough values to unpack (expected 2, got 0)")
      | [_] => .error (.valueError "not enough values to unpack (expected 2, got 1)")
      | _ => .error (.valueError "too many values to unpack (expected 2)")
  | .arr xs =>
      match xs with
      | [a, b] => .ok (a, b)
      | [] => .error (.valueError "not enough values to unpack (expected 2, got 0)")
      | [_] => .error (.valueError "not enough values to unpack (expected 2, got 1)")
      | _ => .error (.valueError "too many values to unpack (expected 2)")
  | .obj fields =>
      match fields with
      | [(k1, _), (k2, _)] => .ok (.str k1, .str k2)
      | [] => .error (.valueError "not enough values to unpack (expected 2, got 0)")
      | [_] => .error (.valueError "not enough values to unpack (expected 2, got 1)")
      | _ => .error (.valueError "too many values to unpack (expected 2)")
  | j => .error (.typeError ("cannot unpack non-iterable " ++ pyTypeName j ++ " object"))

/-- The message-building loop of the server-rejection branch:
`for key, value in response.values(): message.append(f\x27\x7bkey\x7d - \x7bvalue\x7d\x27)`.
Note it iterates over the dict VALUES and unpacks each value as a pair. -/
def rejectionParts : List (String × Json) → Except Exc (List String)
  | [] => .ok []
  | (_, v) :: rest =>
      match unpack2 v with
      | .error e => .error e
      | .ok (a, b) =>
          match rejectionParts rest with
          | .error e => .error e
          | .ok parts => .ok ((pyStr a ++ " - " ++ pyStr b) :: parts)

/-- `get_api_answer(timestamp)`: classifies the HTTP outcome.
`timestamp = timestamp or int(time.time())` only affects the request
parameters, which live inside `http`; `tok` is the module's
`PRACTICUM_TOKEN`, which appears in the formatted error texts via
`HEADERS`.  On a 200 reply the code calls `response.keys()`, so a
non-dict body raises `AttributeError` here, before `check_response`. -/
def get_api_answer (tok : Option String) (timestamp : Json) (http : HttpOutcome) :
    Except Exc Json :=
  match http with
  | .requestException errText =>
      .error (.connectionError (get_api_answer_connection_fmt tok errText))
  | .response status_code body =>
      if status_code ≠ 200 then
        .error (.serverAccessError (get_api_answer_access_fmt tok status_code))
      else
        match body with
        | .obj fields =>
            if (assocLookup fields "error").isSome || (assocLookup fields "code").isSome then
              match rejectionParts fields with
              | .error e => .error e
              | .ok parts =>
                  .error (.serverResponseError
                    (get_api_answer_response_fmt tok (String.intercalate ", " parts)))
            else .ok body
        | other =>
            .error (.attributeError
              ("\x27" ++ pyTypeName other ++ "\x27 object has no attribute \x27keys\x27"))

/-! ## `check_response` (`homework.py`, lines 174-186) -/

/-- Is the value a keyed mapping? (`isinstance(response, dict)`). -/
def Json.isObj : Json → Bool
  | .obj _ => true
  | _ => false

/-- Is the value a sequence? (`isinstance(homeworks, list)`). -/
def Json.isArr : Json → Bool
  | .arr _ => true
  | _ => false

/-- `check_response(response)`: dict check first (`TypeError`), then the
`homeworks` key check (`KeyError`), then the list check (`TypeError`),
then the list is returned as is. -/
def check_response (response : Json) : Except Exc (List Json) :=
  match response with
  | .obj fields =>
      match assocLookup fields "homeworks" with
      | none => .error (.keyError check_response_KeyError_msg)
      | some (.arr homeworks) => .ok homeworks
      | some v => .error (.typeError (check_response_TypeError2_fmt (pyTypeRepr v)))
  | _ => .error (.typeError check_response_TypeError1_msg)

/-! ## `parse_status` (`homework.py`, lines 189-202) -/

/-- `status in HOMEWORK_VERDICTS`: membership in the str-keyed verdict dict. -/
def statusInVerdicts : Json → Bool
  | .str s => (List.lookup s HOMEWORK_VERDICTS).isSome
  | _ => false

/-- `HOMEWORK_VERDICTS[status]` (only reached after the membership check). -/
def verdictGet : Json → Except Exc String
  | .str s =>
      match List.lookup s HOMEWORK_VERDICTS with
      | some v => .ok v
      | none => .error (.keyError s)
  | other => .error (.keyError (pyStr other))

/-- `parse_status(homework)`: checks `homework_name` then `status`
membership, reads the status, rejects statuses outside the verdict table
with `KeyError`, then composes the change notification. -/
def parse_status (homework : Json) : Except Exc String :=
  match pyIn "homework_name" homework with
  | .error e => .error e
  | .ok false => .error (.keyError parse_status_KeyError1_msg)
  | .ok true =>
      match pyIn "status" homework with
      | .error e => .error e
      | .ok false => .error (.keyError parse_status_KeyError2_msg)
      | .ok true =>
          match pyGetItem homework "status" with
          | .error e => .error e
          | .ok status =>
              if statusInVerdicts status then
                match pyGetItem homework "homework_name" with
                | .error e => .error e
                | .ok homework_name =>
                    match verdictGet status with
                    | .error e => .error e
                    | .ok verdict =>
                        .ok (parse_status_success_fmt (pyStr homework_name) verdict)
              else .error (.keyError (parse_status_KeyError3_fmt (pyStr status)))

/-! ## The `while True` loop of `main` (`homework.py`, lines 221-257) -/

/-- The `try` body of one iteration (lines 222-230): fetch, validate,
compute `current_message` (the no-news sentence for an empty list, else
`parse_status` of the first record), then `timestamp = response[\x27current_date\x27]`.
On failure the error is paired with the value `current_message` was
assigned in this iteration before the raise (`none` when the raise came
before that assignment). -/
def try_body (tok : Option String) (timestamp : Json) (http : HttpOutcome) :
    Except (Exc × Option String) (String × Json) :=
  match get_api_answer tok timestamp http with
  | .error e => .error (e, none)
  | .ok response =>
      match check_response response with
      | .error e => .error (e, none)
      | .ok new_homeworks =>
          let msgRes : Except Exc String :=
            match new_homeworks with
            | [] => .ok no_new_status_msg
            | hw :: _ => parse_status hw
          match msgRes with
          | .error e => .error (e, none)
          | .ok current_message =>
              match pyGetItem response "current_date" with
              | .error e => .error (e, some current_message)
              | .ok newTs => .ok (current_message, newTs)

/-- The chain of `except` arms (lines 231-254).  `ConnectionError` and
`ServerAccessError` use the existing `connection_problems` and
`access_error` templates; every other arm formats
`ERROR_MESSAGES[\x27programm_crash\x27]` — a key the dict does not have (its
key is `program_crash`, line 87) — so the lookup itself raises `KeyError`
inside the handler. -/
def main_except_handler (e : Exc) : Except Exc String :=
  match e with
  | .connectionError _ => .ok (connection_problems_fmt (excText e))
  | .serverAccessError _ => .ok (access_error_fmt (excText e))
  | _ =>
      if ERROR_MESSAGES_top_keys.contains "programm_crash" then
        .ok (program_crash_fmt (excText e))
      else .error (.keyError "programm_crash")

/-- The loop's per-iteration state: the watermark variable `timestamp`,
the local `current_message` (`none` while still unbound), and logs of the
messages handed to `send_message` and of the `time.sleep` durations. -/
structure LoopState where
  timestamp : Json
  current_message : Option String
  sent : List String
  slept : List Nat

/-- One iteration of the `while True` loop.  `Sum.inl` is a normal
iteration (the `finally` block sends `current_message` and sleeps
`RETRY_PERIOD`); `Sum.inr` is an iteration that terminates the loop: the
except arm itself raised, and the `finally` block then either sends the
last bound `current_message` and sleeps before the exception propagates,
or — when `current_message` was never bound — raises `NameError` at the
`send_message` call (skipping the sleep). -/
def loop_step (tok : Option String) (st : LoopState) (http : HttpOutcome) :
    Sum LoopState (LoopState × Exc) :=
  match try_body tok st.timestamp http with
  | .ok (msg, newTs) =>
      .inl { timestamp := newTs, current_message := some msg,
             sent := st.sent ++ [msg], slept := st.slept ++ [RETRY_PERIOD] }
  | .error (e, pendingMsg) =>
      match main_except_handler e with
      | .ok crashMsg =>
          .inl { timestamp := st.timestamp, current_message := some crashMsg,
                 sent := st.sent ++ [crashMsg], slept := st.slept ++ [RETRY_PERIOD] }
      | .error e2 =>
          match (match pendingMsg with | some m => some m | none => st.current_message) with
          | some m =>
              .inr ({ timestamp := st.timestamp, current_message := some m,
                      sent := st.sent ++ [m], slept := st.slept ++ [RETRY_PERIOD] }, e2)
          | none =>
              .inr ({ timestamp := st.timestamp, current_message := none,
                      sent := st.sent, slept := st.slept },
                    .nameError "name \x27current_message\x27 is not defined")

/-- Runs the loop over a finite prefix of HTTP outcomes, stopping early if
an iteration terminates the loop; returns the final state and, when the
loop died, the propagated exception. -/
def run_loop (tok : Option String) (st : LoopState) :
    List HttpOutcome → LoopState × Option Exc
  | [] => (st, none)
  | h :: rest =>
      match loop_step tok st h with
      | .inl st2 => run_loop tok st2 rest
      | .inr (st2, e) => (st2, some e)

/-! ## The names imported from `exceptions.py` (`homework.py`, lines 14-17) -/

/-- The exception class names `exceptions.py` actually defines. -/
def exceptions_module_names : List String :=
  ["ServerError", "KeysNotFoundExeption", "StatusKeysException", "UnknownStatusException"]

/-- The names `homework.py` imports with `from exceptions import ...`. -/
def homework_imports_from_exceptions : List String :=
  ["ServerAccessError", "ServerResponseError"]

/-! ## Helper lemmas -/

/-- Inverting a successful `try` body: the fetch succeeded and the new
watermark is exactly the response's `current_date` entry. -/
theorem try_body_ok_inv (tok : Option String) (ts : Json) (http : HttpOutcome)
    (msg : String) (newTs : Json)
    (h : try_body tok ts http = Except.ok (msg, newTs)) :
    ∃ resp, get_api_answer tok ts http = Except.ok resp ∧
      pyGetItem resp "current_date" = Except.ok newTs := by
  cases hg : get_api_answer tok ts http with
  | error e => simp [try_body, hg] at h
  | ok resp =>
      cases hc : check_response resp with
      | error e => simp [try_body, hg, hc] at h
      | ok hws =>
          cases hws with
          | nil =>
              cases hd : pyGetItem resp "current_date" with
              | error e => simp [try_body, hg, hc, hd] at h
              | ok ts2 =>
                  simp [try_body, hg, hc, hd] at h
                  exact ⟨resp, rfl, by simp [hd, h.2]⟩
          | cons hw tl =>
              cases hm : parse_status hw with
              | error e => simp [try_body, hg, hc, hm] at h
              | ok m =>
                  cases hd : pyGetItem resp "current_date" with
                  | error e => simp [try_body, hg, hc, hm, hd] at h
                  | ok ts2 =>
                      simp [try_body, hg, hc, hm, hd] at h
                      exact ⟨resp, rfl, by simp [hd, h.2]⟩

/-! ## Claim theorems -/

/-- C1: the loop does NOT survive every error from steps 1-3.  A
validation `TypeError` (here: a `homeworks` value that is not a list)
reaches an except arm that looks up the missing `ERROR_MESSAGES` key
`programm_crash`; the lookup raises `KeyError` inside the handler and the
iteration terminates the loop — with a `NameError` from the `finally`
block when `current_message` was never bound, and with the handler's
`KeyError` after a farewell send otherwise. -/
theorem crash_report_lookup_terminates_loop :
    loop_step none ⟨Json.num 0, none, [], []⟩
        (HttpOutcome.response 200 (Json.obj [("homeworks", Json.str "x")])) =
      Sum.inr (⟨Json.num 0, none, [], []⟩,
        Exc.nameError "name \x27current_message\x27 is not defined") ∧
    loop_step none ⟨Json.num 0, some "prev", [], []⟩
        (HttpOutcome.response 200 (Json.obj [("homeworks", Json.str "x")])) =
      Sum.inr (⟨Json.num 0, some "prev", ["prev"], [RETRY_PERIOD]⟩,
        Exc.keyError "programm_crash") :=
  ⟨rfl, rfl⟩

/-- C2 (counterexample): two consecutive iterations that compute the same
message (the fixed no-news sentence) deliver it twice, not once — the
`cache_mesage` decorator is commented out, so nothing suppresses the
duplicate send. -/
theorem dedup_counterexample_double_send :
    (run_loop none ⟨Json.num 0, none, [], []⟩
        [HttpOutcome.response 200
           (Json.obj [("homeworks", Json.arr []), ("current_date", Json.num 2)]),
         HttpOutcome.response 200
           (Json.obj [("homeworks", Json.arr []), ("current_date", Json.num 2)])]).1.sent =
      [no_new_status_msg, no_new_status_msg] ∧
    ((run_loop none ⟨Json.num 0, none, [], []⟩
        [HttpOutcome.response 200
           (Json.obj [("homeworks", Json.arr []), ("current_date", Json.num 2)]),
         HttpOutcome.response 200
           (Json.obj [("homeworks", Json.arr []), ("current_date", Json.num 2)])]).1.sent.count
        no_new_status_msg = 2) :=
  ⟨rfl, rfl⟩

/-- C2 (amended): the loop performs no deduplication at all: every
iteration whose `try` body succeeds hands its computed message to
`send_message`, regardless of whether it equals the previously sent one
(`prev` is arbitrary, in particular `some msg`). -/
theorem message_sent_every_iteration (tok : Option String) (ts newTs : Json)
    (prev : Option String) (sent : List String) (slept : List Nat)
    (http : HttpOutcome) (msg : String)
    (h : try_body tok ts http = Except.ok (msg, newTs)) :
    loop_step tok ⟨ts, prev, sent, slept⟩ http =
      Sum.inl ⟨newTs, some msg, sent ++ [msg], slept ++ [RETRY_PERIOD]⟩ := by
  simp [loop_step, h]

/-- C2 (witness): an iteration whose previous message already equals the
computed message still sends it again. -/
theorem message_sent_every_iteration_witness :
    loop_step none ⟨Json.num 0, some no_new_status_msg, [no_new_status_msg], [RETRY_PERIOD]⟩
        (HttpOutcome.response 200
          (Json.obj [("homeworks", Json.arr []), ("current_date", Json.num 2)])) =
      Sum.inl ⟨Json.num 2, some no_new_status_msg,
        [no_new_status_msg, no_new_status_msg], [RETRY_PERIOD, RETRY_PERIOD]⟩ :=
  message_sent_every_iteration none (Json.num 0) (Json.num 2) (some no_new_status_msg)
    [no_new_status_msg] [RETRY_PERIOD] _ no_new_status_msg rfl

/-- C3: the two names `homework.py` imports from the exceptions module,
`ServerAccessError` and `ServerResponseError`, are NOT among the classes
`exceptions.py` defines, so the `from exceptions import ...` statement
fails and module initialization cannot succeed. -/
theorem imported_exception_names_missing :
    exceptions_module_names.contains "ServerAccessError" = false ∧
    exceptions_module_names.contains "ServerResponseError" = false ∧
    homework_imports_from_exceptions.all
      (fun n => exceptions_module_names.contains n) = false := by
  decide

/-- C4 (counterexample): on a successful fetch of a well-formed response
that merely lacks `current_date`, the code does not fall back to the
unchanged watermark: `response[\x27current_date\x27]` raises `KeyError`
(after `current_message` was already computed), and the broken
crash-report lookup then terminates the loop. -/
theorem current_date_absent_counterexample :
    try_body none (Json.num 0)
        (HttpOutcome.response 200 (Json.obj [("homeworks", Json.arr [])])) =
      Except.error (Exc.keyError "current_date", some no_new_status_msg) ∧
    loop_step none ⟨Json.num 0, none, [], []⟩
        (HttpOutcome.response 200 (Json.obj [("homeworks", Json.arr [])])) =
      Sum.inr (⟨Json.num 0, some no_new_status_msg, [no_new_status_msg], [RETRY_PERIOD]⟩,
        Exc.keyError "programm_crash") :=
  ⟨rfl, rfl⟩

/-- C4 (amended): when the `try` body succeeds the watermark is set to the
response's `current_date` value (before the notification in `finally`);
when it fails, either the iteration continues with the watermark
unchanged, or the loop terminates (broken handler), again with the
watermark unchanged. -/
theorem watermark_update_policy (tok : Option String) (ts : Json)
    (prev : Option String) (sent : List String) (slept : List Nat)
    (http : HttpOutcome) :
    (∀ msg newTs, try_body tok ts http = Except.ok (msg, newTs) →
      loop_step tok ⟨ts, prev, sent, slept⟩ http =
        Sum.inl ⟨newTs, some msg, sent ++ [msg], slept ++ [RETRY_PERIOD]⟩ ∧
      ∃ resp, get_api_answer tok ts http = Except.ok resp ∧
        pyGetItem resp "current_date" = Except.ok newTs) ∧
    (∀ e pm, try_body tok ts http = Except.error (e, pm) →
      (∃ m, loop_step tok ⟨ts, prev, sent, slept⟩ http =
        Sum.inl ⟨ts, some m, sent ++ [m], slept ++ [RETRY_PERIOD]⟩) ∨
      (∃ st2 e2, loop_step tok ⟨ts, prev, sent, slept⟩ http = Sum.inr (st2, e2) ∧
        st2.timestamp = ts)) := by
  constructor
  · intro msg newTs h
    exact ⟨by simp [loop_step, h], try_body_ok_inv tok ts http msg newTs h⟩
  · intro e pm h
    cases hh : main_except_handler e with
    | ok crashMsg =>
        left
        exact ⟨crashMsg, by simp [loop_step, h, hh]⟩
    | error e2 =>
        right
        cases pm with
        | some m =>
            refine ⟨⟨ts, some m, sent ++ [m], slept ++ [RETRY_PERIOD]⟩, e2, ?_, rfl⟩
            simp [loop_step, h, hh]
        | none =>
            cases prev with
            | some m =>
                refine ⟨⟨ts, some m, sent ++ [m], slept ++ [RETRY_PERIOD]⟩, e2, ?_, rfl⟩
                simp [loop_step, h, hh]
            | none =>
                refine ⟨⟨ts, none, sent, slept⟩,
                  Exc.nameError "name \x27current_message\x27 is not defined", ?_, rfl⟩
                simp [loop_step, h, hh]

/-- C4 (amended, witness): a successful iteration advances the watermark
to the response's `current_date` value. -/
theorem watermark_update_policy_witness :
    loop_step none ⟨Json.num 0, none, [], []⟩
        (HttpOutcome.response 200
          (Json.obj [("homeworks", Json.arr []), ("current_date", Json.num 7)])) =
      Sum.inl ⟨Json.num 7, some no_new_status_msg, [no_new_status_msg], [RETRY_PERIOD]⟩ ∧
    ∃ resp, get_api_answer none (Json.num 0)
        (HttpOutcome.response 200
          (Json.obj [("homeworks", Json.arr []), ("current_date", Json.num 7)])) =
        Except.ok resp ∧
      pyGetItem resp "current_date" = Except.ok (Json.num 7) :=
  (watermark_update_policy none (Json.num 0) none [] []
      (HttpOutcome.response 200
        (Json.obj [("homeworks", Json.arr []), ("current_date", Json.num 7)]))).1
    no_new_status_msg (Json.num 7) rfl

/-- C5 (counterexample): the retry period is 6 seconds, not 600; a
concrete iteration's sleep log records 6. -/
theorem retry_period_counterexample :
    RETRY_PERIOD = 6 ∧ (RETRY_PERIOD == 600) = false ∧
    (run_loop none ⟨Json.num 0, none, [], []⟩
        [HttpOutcome.response 200
          (Json.obj [("homeworks", Json.arr []), ("current_date", Json.num 2)])]).1.slept =
      [6] :=
  ⟨rfl, rfl, rfl⟩

/-- C5 (amended): every iteration that continues the loop ends with a
`time.sleep(RETRY_PERIOD)` call, and `RETRY_PERIOD` is 6 seconds. -/
theorem sleep_after_each_continuing_iteration (tok : Option String) (st : LoopState)
    (http : HttpOutcome) (st2 : LoopState)
    (h : loop_step tok st http = Sum.inl st2) :
    st2.slept = st.slept ++ [RETRY_PERIOD] ∧ RETRY_PERIOD = 6 := by
  refine ⟨?_, rfl⟩
  unfold loop_step at h
  cases ht : try_body tok st.timestamp http with
  | ok p =>
      rw [ht] at h
      cases h
      rfl
  | error q =>
      rw [ht] at h
      simp only at h
      cases hh : main_except_handler q.1 with
      | ok crashMsg => rw [hh] at h; cases h; rfl
      | error e2 =>
          rw [hh] at h
          cases hb : (match q.2 with | some m => some m | none => st.current_message) with
          | some m => rw [hb] at h; simp at h
          | none => rw [hb] at h; simp at h

/-- C5 (amended, witness): a concrete continuing iteration sleeps exactly
`RETRY_PERIOD = 6` seconds at its end. -/
theorem sleep_after_each_continuing_iteration_witness :
    (⟨Json.num 2, some no_new_status_msg, [no_new_status_msg], [RETRY_PERIOD]⟩
        : LoopState).slept =
      (⟨Json.num 0, none, [], []⟩ : LoopState).slept ++ [RETRY_PERIOD] ∧
    RETRY_PERIOD = 6 :=
  sleep_after_each_continuing_iteration none ⟨Json.num 0, none, [], []⟩
    (HttpOutcome.response 200
      (Json.obj [("homeworks", Json.arr []), ("current_date", Json.num 2)]))
    ⟨Json.num 2, some no_new_status_msg, [no_new_status_msg], [RETRY_PERIOD]⟩ rfl

/-- C6: an HTTP-200 payload carrying `error` and `code` keys does NOT
produce a server-rejection error carrying the payload's key/value pairs:
the message-building loop iterates `response.values()` and unpacks each
value as a pair, so for the payload
`\x7b"error": "bad", "code": 404\x7d` it raises
`ValueError` (unpacking the three-character string `"bad"`) instead of
`ServerResponseError`. -/
theorem server_rejection_unpack_crash :
    get_api_answer none (Json.num 0)
        (HttpOutcome.response 200
          (Json.obj [("error", Json.str "bad"), ("code", Json.num 404)])) =
      Except.error (Exc.valueError "too many values to unpack (expected 2)") :=
  rfl

/-- C7: a homework record whose `status` value lies outside the verdict
table makes `parse_status` fail with the unknown-status `KeyError`, and no
notification text is returned. -/
theorem unknown_status_hard_error (fields : List (String × Json)) (nameV statusV : Json)
    (hname : assocLookup fields "homework_name" = some nameV)
    (hstatus : assocLookup fields "status" = some statusV)
    (hunk : statusInVerdicts statusV = false) :
    parse_status (Json.obj fields) =
      Except.error (Exc.keyError (parse_status_KeyError3_fmt (pyStr statusV))) ∧
    ∀ s, parse_status (Json.obj fields) ≠ Except.ok s := by
  have h1 : pyIn "homework_name" (Json.obj fields) = Except.ok true := by
    simp [pyIn, hname]
  have h2 : pyIn "status" (Json.obj fields) = Except.ok true := by
    simp [pyIn, hstatus]
  have h3 : pyGetItem (Json.obj fields) "status" = Except.ok statusV := by
    simp [pyGetItem, hstatus]
  have hmain : parse_status (Json.obj fields) =
      Except.error (Exc.keyError (parse_status_KeyError3_fmt (pyStr statusV))) := by
    simp [parse_status, h1, h2, h3, hunk]
  exact ⟨hmain, fun s => by simp [hmain]⟩

/-- C7 (witness): the record with status `"weird"` fails with the
unknown-status `KeyError` carrying that status. -/
theorem unknown_status_hard_error_witness :
    parse_status (Json.obj [("homework_name", Json.str "hw"), ("status", Json.str "weird")]) =
      Except.error (Exc.keyError (parse_status_KeyError3_fmt (pyStr (Json.str "weird")))) ∧
    ∀ s, parse_status
        (Json.obj [("homework_name", Json.str "hw"), ("status", Json.str "weird")]) ≠
      Except.ok s :=
  unknown_status_hard_error _ (Json.str "hw") (Json.str "weird") rfl rfl rfl

/-- C8: `check_response` rejects every non-mapping with the shape error
before any key access; the mapping check precedes the `homeworks`-key
check, which precedes the sequence-type check, and a present list is
returned as is. -/
theorem check_response_shape_order :
    (∀ j : Json, j.isObj = false →
      check_response j = Except.error (Exc.typeError check_response_TypeError1_msg)) ∧
    (∀ fields, assocLookup fields "homeworks" = none →
      check_response (Json.obj fields) =
        Except.error (Exc.keyError check_response_KeyError_msg)) ∧
    (∀ fields v, assocLookup fields "homeworks" = some v → v.isArr = false →
      check_response (Json.obj fields) =
        Except.error (Exc.typeError (check_response_TypeError2_fmt (pyTypeRepr v)))) ∧
    (∀ fields homeworks, assocLookup fields "homeworks" = some (Json.arr homeworks) →
      check_response (Json.obj fields) = Except.ok homeworks) := by
  refine ⟨?_, ?_, ?_, ?_⟩
  · intro j hj
    cases j <;> simp_all [check_response, Json.isObj]
  · intro fields h
    simp [check_response, h]
  · intro fields v h hv
    cases v <;> simp_all [check_response, Json.isArr]
  · intro fields homeworks h
    simp [check_response, h]

/-- C8 (witness): a JSON list is rejected with the dict-shape error. -/
theorem check_response_shape_order_witness :
    check_response (Json.arr []) =
      Except.error (Exc.typeError check_response_TypeError1_msg) :=
  check_response_shape_order.1 (Json.arr []) rfl

/-- C9: the notification template composes the name and the reviewing
verdict exactly as the spec's round-trip states. -/
theorem format_change_notice_roundtrip :
    parse_status
        (Json.obj [("homework_name", Json.str "Project X"),
                   ("status", Json.str "reviewing")]) =
      Except.ok "Изменился статус проверки работы \"Project X\". Работа взята на проверку ревьюером." :=
  rfl

/-- C10: a falsy credential makes startup exit with status 1 after the
critical log, without entering the loop or sending anything; with all
three credentials non-empty the token check passes and the loop is
entered. -/
theorem token_check_fail_fast :
    (∀ c : Credentials,
      (tokenFalsy c.practicum_token || tokenFalsy c.telegram_token ||
        tokenFalsy c.telegram_chat_id) = true →
      ∃ log, main_startup c = StartupOutcome.exited 1 log ∧
        ∀ sends, main_startup c ≠ StartupOutcome.enteredLoop sends) ∧
    (∀ c : Credentials,
      tokenFalsy c.practicum_token = false → tokenFalsy c.telegram_token = false →
      tokenFalsy c.telegram_chat_id = false →
      check_tokens c = Except.ok () ∧
      main_startup c = StartupOutcome.enteredLoop [bot_init_msg]) := by
  constructor
  · rintro ⟨p, t, i⟩ h
    cases hp : tokenFalsy p <;> cases ht : tokenFalsy t <;> cases hi : tokenFalsy i <;>
      simp_all [check_tokens, main_startup]
  · rintro ⟨p, t, i⟩ hp ht hi
    simp_all [check_tokens, main_startup]

/-- C10 (witness): a missing `PRACTICUM_TOKEN` exits with status 1 and
never enters the loop; fully present credentials pass the check. -/
theorem token_check_fail_fast_witness :
    (∃ log, main_startup ⟨none, some "t", some "id"⟩ = StartupOutcome.exited 1 log ∧
      ∀ sends, main_startup ⟨none, some "t", some "id"⟩ ≠
        StartupOutcome.enteredLoop sends) ∧
    (check_tokens ⟨some "p", some "t", some "id"⟩ = Except.ok () ∧
      main_startup ⟨some "p", some "t", some "id"⟩ =
        StartupOutcome.enteredLoop [bot_init_msg]) :=
  ⟨token_check_fail_fast.1 ⟨none, some "t", some "id"⟩ rfl,
   token_check_fail_fast.2 ⟨some "p", some "t", some "id"⟩ rfl rfl rfl⟩

end HomeworkBot
